import Mathlib

/-!
Shallow embedding of restic-automator-rs (src/main.rs) for checking its
specification.  The program is a per-directory debounce-and-single-flight
backup scheduler around the external restic tool:

* `backup` (main.rs lines 29-66): sleeps `throttle` seconds, spawns the
  external tool with a fixed argv/env, reads stdout, parses it as JSON with
  serde_json, and logs either a summary or the raw text.
* `start_watching` (lines 68-89): per-job loop: receive one signal from an
  unbounded channel, then race `backup` to completion against an infinite
  drain of the channel inside a select.
* `unlock_repository` (lines 91-105): one-shot unlock subprocess at startup.
* `main` (lines 107-142): loads config, awaits `unlock_repository`, then
  joins all `start_watching` tasks.

Subprocess execution and the tokio runtime are modelled explicitly below;
every definition carries a comment naming the source lines it embeds.
-/

namespace ResticAutomator

/-! ### Data model (main.rs lines 13-27) -/

/-- Embedding of struct BackupConfig (lines 13-21). -/
structure BackupConfig where
  repo : String
  exclude_file : String
  password_command : String
  logfile : String
  env_path : String
  restic_path : String

/-- Embedding of struct BackupJobConfig (lines 22-27); throttle is a u64
number of seconds, modelled as Nat (the claims never exercise overflow). -/
structure BackupJobConfig where
  name : String
  path : String
  throttle : Nat

/-! ### serde_json model

`backup` calls serde_json from_str to Value (line 56), then indexes the
value with string keys and displays the results (line 58).  The JSON value
type, the parser with the grammar serde_json accepts, the string index
(null for a missing key or a non-object), and the compact display are
embedded here.  Numbers are kept as their source lexeme: every number the
claims exercise is a plain decimal that serde_json round-trips verbatim
between parse and display. -/

/-- A JSON value, as serde_json Value. -/
inductive Json where
  | null : Json
  | bool (b : Bool) : Json
  | num (lex : String) : Json
  | str (s : String) : Json
  | arr (elems : List Json) : Json
  | obj (fields : List (String × Json)) : Json

/-- Skip JSON whitespace (space, tab, line feed, carriage return). -/
def skipWs : List Char → List Char
  | [] => []
  | c :: cs =>
      if c = ' ' ∨ c = '\t' ∨ c = '\n' ∨ c = Char.ofNat 13 then skipWs cs
      else c :: cs

/-- Value of one hexadecimal digit. -/
def hexVal (c : Char) : Option Nat :=
  if '0' ≤ c ∧ c ≤ '9' then some (c.toNat - 48)
  else if 'a' ≤ c ∧ c ≤ 'f' then some (c.toNat - 87)
  else if 'A' ≤ c ∧ c ≤ 'F' then some (c.toNat - 55)
  else none

/-- Body of a JSON string literal after the opening quote, with the escape
sequences serde_json accepts; rejects raw control characters. -/
def parseStringAux : List Char → List Char → Option (String × List Char)
  | _, [] => none
  | acc, '"' :: cs => some (String.mk acc.reverse, cs)
  | acc, '\\' :: '"' :: cs => parseStringAux ('"' :: acc) cs
  | acc, '\\' :: '\\' :: cs => parseStringAux ('\\' :: acc) cs
  | acc, '\\' :: '/' :: cs => parseStringAux ('/' :: acc) cs
  | acc, '\\' :: 'b' :: cs => parseStringAux (Char.ofNat 8 :: acc) cs
  | acc, '\\' :: 'f' :: cs => parseStringAux (Char.ofNat 12 :: acc) cs
  | acc, '\\' :: 'n' :: cs => parseStringAux ('\n' :: acc) cs
  | acc, '\\' :: 'r' :: cs => parseStringAux (Char.ofNat 13 :: acc) cs
  | acc, '\\' :: 't' :: cs => parseStringAux ('\t' :: acc) cs
  | acc, '\\' :: 'u' :: a :: b :: c :: d :: cs =>
      match hexVal a, hexVal b, hexVal c, hexVal d with
      | some x, some y, some z, some w =>
          parseStringAux (Char.ofNat (4096 * x + 256 * y + 16 * z + w) :: acc) cs
      | _, _, _, _ => none
  | _, '\\' :: _ => none
  | acc, c :: cs =>
      if c.toNat < 32 then none else parseStringAux (c :: acc) cs

/-- Longest prefix of decimal digits, and the rest. -/
def takeDigits : List Char → List Char × List Char
  | [] => ([], [])
  | c :: cs =>
      if c.isDigit then
        let p := takeDigits cs
        (c :: p.1, p.2)
      else ([], c :: cs)

/-- Optional exponent part of a number lexeme. -/
def parseExpPart (lex : List Char) (cs : List Char) : Option (Json × List Char) :=
  match cs with
  | [] => some (Json.num (String.mk lex), [])
  | e :: rest =>
      if e = 'e' ∨ e = 'E' then
        let sr : List Char × List Char :=
          match rest with
          | '+' :: r => (['+'], r)
          | '-' :: r => (['-'], r)
          | _ => ([], rest)
        match sr.2 with
        | c :: _ =>
            if c.isDigit then
              let p := takeDigits sr.2
              some (Json.num (String.mk (lex ++ [e] ++ sr.1 ++ p.1)), p.2)
            else none
        | [] => none
      else some (Json.num (String.mk lex), cs)

/-- Optional fraction then exponent part of a number lexeme. -/
def parseFracExp (lex : List Char) (cs : List Char) : Option (Json × List Char) :=
  match cs with
  | '.' :: r =>
      match r with
      | c :: _ =>
          if c.isDigit then
            let p := takeDigits r
            parseExpPart (lex ++ ['.'] ++ p.1) p.2
          else none
      | [] => none
  | _ => parseExpPart lex cs

/-- One JSON number at the head of the input: optional minus, integer part,
optional fraction and exponent. -/
def parseNumber (cs : List Char) : Option (Json × List Char) :=
  let sr : List Char × List Char :=
    match cs with
    | '-' :: r => (['-'], r)
    | _ => ([], cs)
  match sr.2 with
  | [] => none
  | c :: r =>
      if c = '0' then parseFracExp (sr.1 ++ ['0']) r
      else if c.isDigit then
        let p := takeDigits sr.2
        parseFracExp (sr.1 ++ p.1) p.2
      else none

mutual

/-- One JSON value at the head of the input (fuel-indexed; the fuel only
bounds nesting depth and is chosen large enough at the top level). -/
def parseVal (fuel : Nat) (cs : List Char) : Option (Json × List Char) :=
  match fuel with
  | 0 => none
  | f + 1 =>
      match skipWs cs with
      | [] => none
      | 'n' :: 'u' :: 'l' :: 'l' :: r => some (Json.null, r)
      | 't' :: 'r' :: 'u' :: 'e' :: r => some (Json.bool true, r)
      | 'f' :: 'a' :: 'l' :: 's' :: 'e' :: r => some (Json.bool false, r)
      | '"' :: r => (parseStringAux [] r).map (fun p => (Json.str p.1, p.2))
      | '[' :: r =>
          match skipWs r with
          | ']' :: r2 => some (Json.arr [], r2)
          | r2 => parseArrItems f r2 []
      | '\x7b' :: r =>
          match skipWs r with
          | '\x7d' :: r2 => some (Json.obj [], r2)
          | r2 => parseObjItems f r2 []
      | c :: r => if c = '-' ∨ c.isDigit then parseNumber (c :: r) else none

/-- Comma-separated array elements, after the opening bracket. -/
def parseArrItems (fuel : Nat) (cs : List Char) (acc : List Json) :
    Option (Json × List Char) :=
  match fuel with
  | 0 => none
  | f + 1 =>
      match parseVal f cs with
      | none => none
      | some (v, r) =>
          match skipWs r with
          | ',' :: r2 => parseArrItems f r2 (v :: acc)
          | ']' :: r2 => some (Json.arr (v :: acc).reverse, r2)
          | _ => none

/-- Comma-separated object members, after the opening brace. -/
def parseObjItems (fuel : Nat) (cs : List Char) (acc : List (String × Json)) :
    Option (Json × List Char) :=
  match fuel with
  | 0 => none
  | f + 1 =>
      match skipWs cs with
      | '"' :: r =>
          match parseStringAux [] r with
          | none => none
          | some (k, r2) =>
              match skipWs r2 with
              | ':' :: r3 =>
                  match parseVal f r3 with
                  | none => none
                  | some (v, r4) =>
                      match skipWs r4 with
                      | ',' :: r5 => parseObjItems f r5 ((k, v) :: acc)
                      | '\x7d' :: r5 => some (Json.obj ((k, v) :: acc).reverse, r5)
                      | _ => none
              | _ => none
      | _ => none

end

/-- Embedding of serde_json from_str to Value (line 56): parse one document
with only whitespace around it. -/
def parseJson (s : String) : Option Json :=
  match parseVal (2 * s.length + 2) s.toList with
  | some (v, rest) => if skipWs rest = [] then some v else none
  | none => none

/-- Embedding of indexing a Value with a string key, as in v["files_new"]
(line 58): the member for the key if the value is an object that has it
(last binding wins, as in the serde_json map), Null otherwise. -/
def jsonIndex (v : Json) (k : String) : Json :=
  match v with
  | Json.obj fields =>
      match fields.reverse.find? (fun p => p.1 == k) with
      | some p => p.2
      | none => Json.null
  | _ => Json.null

/-- Whether an object value carries the key (false for non-objects). -/
def hasKey (v : Json) (k : String) : Bool :=
  match v with
  | Json.obj fields => fields.any (fun p => p.1 == k)
  | _ => false

/-- Hexadecimal digit character for a value below 16. -/
def hexDigit (n : Nat) : Char :=
  if n < 10 then Char.ofNat (48 + n) else Char.ofNat (87 + n)

/-- Escaping of one character inside a displayed JSON string. -/
def escapeChar (c : Char) : String :=
  if c = '"' then "\\\""
  else if c = '\\' then "\\\\"
  else if c = '\n' then "\\n"
  else if c = Char.ofNat 13 then "\\r"
  else if c = '\t' then "\\t"
  else if c = Char.ofNat 8 then "\\b"
  else if c = Char.ofNat 12 then "\\f"
  else if c.toNat < 32 then
    "\\u00" ++ String.mk [hexDigit (c.toNat / 16), hexDigit (c.toNat % 16)]
  else String.mk [c]

/-- Escaping of a displayed JSON string. -/
def escapeString (s : String) : String :=
  String.join (s.toList.map escapeChar)

mutual

/-- Embedding of the Display instance of serde_json Value, used by the
logging macro for v["files_new"] etc. (line 58): compact JSON text; a
number displays as its lexeme (see the note on the Json type). -/
def jsonDisplay : Json → String
  | Json.null => "null"
  | Json.bool true => "true"
  | Json.bool false => "false"
  | Json.num lex => lex
  | Json.str s => "\"" ++ escapeString s ++ "\""
  | Json.arr elems => "[" ++ jsonDisplayList elems ++ "]"
  | Json.obj fields => "\x7b" ++ jsonDisplayObj fields ++ "\x7d"

/-- Comma-separated display of array elements. -/
def jsonDisplayList : List Json → String
  | [] => ""
  | [v] => jsonDisplay v
  | v :: vs => jsonDisplay v ++ "," ++ jsonDisplayList vs

/-- Comma-separated display of object members. -/
def jsonDisplayObj : List (String × Json) → String
  | [] => ""
  | [(k, v)] => "\"" ++ escapeString k ++ "\":" ++ jsonDisplay v
  | (k, v) :: rest =>
      "\"" ++ escapeString k ++ "\":" ++ jsonDisplay v ++ "," ++
        jsonDisplayObj rest

end

/-! ### Log model

The source logs through the info and error macros of the log crate; a log
line is modelled by its level and its fully formatted message. -/

/-- One emitted log line. -/
inductive LogLine where
  | info (msg : String) : LogLine
  | error (msg : String) : LogLine
deriving DecidableEq, Repr

/-- Whether a log line was emitted at error level. -/
def LogLine.isError : LogLine → Bool
  | LogLine.info _ => false
  | LogLine.error _ => true

/-! ### Subprocess command construction (main.rs lines 35-48 and 95-103) -/

/-- The observable configuration of one std::process::Command at its spawn
call: program, environment additions, argv, and whether each output stream
is piped (true) or inherited (false). -/
structure CmdSpec where
  program : String
  envs : List (String × String)
  args : List String
  stdoutPiped : Bool
  stderrPiped : Bool
deriving DecidableEq, Repr

/-- Embedding of the Command built by backup (lines 35-47): program,
environment, argv in source order, both streams piped. -/
def backupCmd (job : BackupJobConfig) (config : BackupConfig) : CmdSpec :=
  { program := config.restic_path
    envs := [("PATH", config.env_path),
             ("RESTIC_PASSWORD_COMMAND", config.password_command)]
    args := ["-r", config.repo, "--json", "-q", "--exclude-file",
             config.exclude_file, "backup", job.path]
    stdoutPiped := true
    stderrPiped := true }

/-- Embedding of the Command built by unlock_repository (lines 95-102):
same program and environment, the unlock subcommand, streams inherited. -/
def unlockCmd (config : BackupConfig) : CmdSpec :=
  { program := config.restic_path
    envs := [("PATH", config.env_path),
             ("RESTIC_PASSWORD_COMMAND", config.password_command)]
    args := ["-r", config.repo, "unlock"]
    stdoutPiped := false
    stderrPiped := false }

/-! ### The backup invocation (main.rs lines 29-66) -/

/-- What the OS handed back for one successfully spawned subprocess: the
captured stdout text and the exit code wait reports. -/
structure ProcOutput where
  stdout : String
  exitCode : Int

/-- The log line of line 30. -/
def scheduledLine (job : BackupJobConfig) : LogLine :=
  LogLine.info ("FS Changes detected on " ++ job.path ++
    ", backup scheduled in " ++ toString job.throttle ++ " seconds.")

/-- The log line of line 32. -/
def initiatingLine (job : BackupJobConfig) : LogLine :=
  LogLine.info (job.name ++ " Backup on " ++ job.path ++ " initiating.")

/-- The summary log line of line 58, built from the parsed Value. -/
def summaryLine (v : Json) : LogLine :=
  LogLine.info ("Backup Complete. - " ++ jsonDisplay (jsonIndex v "files_new") ++
    " new, " ++ jsonDisplay (jsonIndex v "files_changed") ++
    " changed, finished in " ++ jsonDisplay (jsonIndex v "total_duration") ++
    " seconds.")

/-- The parse-failure log line of line 61, carrying the raw captured text. -/
def parseErrorLine (raw : String) : LogLine :=
  LogLine.error ("Unable to parse restic response json: Raw resp: " ++ raw)

/-- Embedding of async fn backup (lines 29-66).  The subprocess is
external, so the parameter spawn is what the OS returned at the spawn call
of line 48: none for a spawn failure, otherwise the captured stdout and the
exit code.  An Except.error result models a panic (the expect of line 48);
Except.ok logs models a normal return, whose Rust value is always Ok(())
(line 65).  The sleep of line 31 is pure timing and is carried by the
scheduler model runSched below; the stdout read of lines 50-54 is modelled
as succeeding with the captured text.  Note line 55: the wait result, and
with it the exit code, is discarded by the source. -/
def backup (job : BackupJobConfig) (spawn : Option ProcOutput) :
    Except String (List LogLine) :=
  let l1 := scheduledLine job
  let l2 := initiatingLine job
  match spawn with
  | none => Except.error "Failed to spawn restic process."
  | some out =>
      let l3 :=
        match parseJson out.stdout with
        | some v => summaryLine v
        | none => parseErrorLine out.stdout
      Except.ok [l1, l2, l3]

/-! ### Scheduler timing model (main.rs lines 68-89)

The start_watching loop is, per job: receive one signal from the unbounded
channel (line 79), then run a select (lines 80-87) racing backup against an
infinite loop that receives and drops further signals.  Its timing over a
sorted list of signal arrival instants, with throttle T and subprocess
duration R, is modelled by runSched, which returns the list of cycle start
instants (the instants the recv of line 79 returned a signal):

* ready is the instant the loop is back at the recv of line 79; the recv
  returns at start = max ready a for the next undropped signal arrival a.
* backup suspends at the sleep of line 31 until start + T.  While the task
  is suspended there, each arriving signal wakes the task, the select polls
  the drain branch, and the signal is received and dropped: every signal
  arriving before start + T disappears.
* From start + T the backup body is synchronous blocking code (the
  std::process spawn, read and wait of lines 35-63 contain no await), so
  the task is not polled again before backup completes at start + T + R:
  a signal arriving at or after start + T stays queued in the unbounded
  channel and is handed out by a later recv.  The boundary race at exactly
  start + T is resolved in favour of dropping.
* The select completes at start + T + R with the backup branch, the drain
  branch is dropped, and the loop is back at recv with ready = start+T+R.
-/

/-- Worker for runSched, structurally recursive on a fuel argument; one
unit of fuel is spent per cycle, and since every cycle consumes at least
the signal that started it, fuel equal to the number of signals always
suffices (runSchedAux_congr below). -/
def runSchedAux (T R : Nat) : Nat → Nat → List Nat → List Nat
  | _, _, [] => []
  | 0, _, _ => []
  | fuel + 1, ready, a :: rest =>
      let start := max ready a
      start :: runSchedAux T R fuel (start + T + R)
        (rest.filter (fun b => start + T ≤ b))

/-- Cycle start instants of the start_watching loop (lines 78-88) on a
sorted trace of signal arrival instants. -/
def runSched (T R ready : Nat) (sigs : List Nat) : List Nat :=
  runSchedAux T R sigs.length ready sigs

/-- The instants the backup subprocess of each cycle is spawned (line 48):
the throttle sleep ends T after the cycle start. -/
def invocations (T R : Nat) (ready : Nat) (sigs : List Nat) : List Nat :=
  (runSched T R ready sigs).map (fun s => s + T)

/-- Worker for runSchedSpec, fuelled like runSchedAux. -/
def runSchedSpecAux (T R : Nat) : Nat → Nat → List Nat → List Nat
  | _, _, [] => []
  | 0, _, _ => []
  | fuel + 1, ready, a :: rest =>
      let start := max ready a
      start :: runSchedSpecAux T R fuel (start + T + R)
        (rest.filter (fun b => start + T + R < b))

/-- Modelled from the spec: the absorption window the specification
describes.  The Pending plus Running interval of a cycle is a single
absorption window; every signal inside it is dropped, and only a signal
arriving strictly after the window closes starts the next cycle. -/
def runSchedSpec (T R ready : Nat) (sigs : List Nat) : List Nat :=
  runSchedSpecAux T R sigs.length ready sigs

/-! ### Process startup (main.rs lines 91-142) -/

/-- What the OS and the subprocess did for the unlock invocation of lines
95-103: the spawn call can fail, the wait call can fail, or the subprocess
runs and exits with some code. -/
inductive UnlockOutcome where
  | spawnFail : UnlockOutcome
  | waitFail : UnlockOutcome
  | exited (code : Int) : UnlockOutcome

/-- Embedding of async fn unlock_repository (lines 91-105): Except.error
models a panic from one of the two expect calls of line 103; otherwise the
function logs and returns.  The exit code of the subprocess is never read:
wait only fails for OS-level reasons, not for a non-zero exit. -/
def unlock_repository (o : UnlockOutcome) : Except String (List LogLine) :=
  let l1 := LogLine.info "Unlocking Repository"
  let l2 := LogLine.info "Attempting to remove stale lock"
  match o with
  | UnlockOutcome.spawnFail => Except.error "Failed to spawn restic process."
  | UnlockOutcome.waitFail => Except.error "Failed to remove stale lock."
  | UnlockOutcome.exited _ =>
      Except.ok [l1, l2, LogLine.info "Lock removed success."]

/-- Observable ordering events of the process. -/
inductive Event where
  | unlockInvoke : Event
  | unlockDone : Event
  | watchStart (name : String) : Event
  | backupSpawn (name : String) : Event
deriving DecidableEq, Repr

/-- Whether an event is a backup subprocess spawn of some scheduler. -/
def Event.isBackupSpawn : Event → Bool
  | Event.backupSpawn _ => true
  | _ => false

/-- Whether an event belongs to a scheduler task (the start_watching
futures only register watchers and spawn backup subprocesses). -/
def Event.isSchedEvent : Event → Bool
  | Event.watchStart _ => true
  | Event.backupSpawn _ => true
  | _ => false

/-- Embedding of the ordering of fn main (lines 107-142): after config and
logger setup, main awaits unlock_repository to completion (line 127) before
any start_watching future is built and joined (lines 129-141).  schedEvents
stands for the arbitrarily interleaved events of the joined scheduler
tasks, all of them scheduler events.  The result is the event trace of the
process, or the panic message if unlocking panicked, in which case no
scheduler is ever constructed. -/
def mainRun (o : UnlockOutcome) (schedEvents : List Event) :
    Except String (List Event) :=
  match unlock_repository o with
  | Except.error msg => Except.error msg
  | Except.ok _ =>
      Except.ok ([Event.unlockInvoke, Event.unlockDone] ++ schedEvents)

/-! ### Scheduler lemmas -/

/-- The fuel of runSchedAux is irrelevant once it covers the number of
signals: every cycle consumes at least the signal that started it. -/
lemma runSchedAux_congr (T R : Nat) :
    ∀ fuel fuel' ready (sigs : List Nat), sigs.length ≤ fuel →
      sigs.length ≤ fuel' →
      runSchedAux T R fuel ready sigs = runSchedAux T R fuel' ready sigs := by
  intro fuel
  induction fuel with
  | zero =>
      intro fuel' ready sigs h _
      cases sigs with
      | nil => cases fuel' <;> rfl
      | cons a rest => simp at h
  | succ f ih =>
      intro fuel' ready sigs h h'
      cases sigs with
      | nil => cases fuel' <;> rfl
      | cons a rest =>
          cases fuel' with
          | zero => simp at h'
          | succ f' =>
              simp only [runSchedAux]
              congr 1
              exact ih f' _ _
                (le_trans (List.length_filter_le _ _) (Nat.le_of_succ_le_succ h))
                (le_trans (List.length_filter_le _ _) (Nat.le_of_succ_le_succ h'))

/-- One unfolding step of the scheduler: the recv of line 79 returns at
max ready a, the cycle runs to max ready a + T + R, and exactly the
signals arriving before the sleep ends (line 31) are received and dropped
by the drain branch of the select (lines 82-86). -/
lemma runSched_cons (T R ready a : Nat) (rest : List Nat) :
    runSched T R ready (a :: rest) =
      max ready a :: runSched T R (max ready a + T + R)
        (rest.filter (fun b => max ready a + T ≤ b)) := by
  show runSchedAux T R (rest.length + 1) ready (a :: rest) = _
  simp only [runSchedAux]
  congr 1
  exact runSchedAux_congr T R rest.length _ _ _ (List.length_filter_le _ _) le_rfl

/-- Every cycle starts no earlier than the instant the loop was back at
the recv. -/
lemma runSchedAux_mem_ge (T R : Nat) :
    ∀ fuel ready (sigs : List Nat) x,
      x ∈ runSchedAux T R fuel ready sigs → ready ≤ x := by
  intro fuel
  induction fuel with
  | zero =>
      intro ready sigs x hx
      cases sigs <;> simp [runSchedAux] at hx
  | succ f ih =>
      intro ready sigs x hx
      cases sigs with
      | nil => simp [runSchedAux] at hx
      | cons a rest =>
          simp only [runSchedAux, List.mem_cons] at hx
          rcases hx with h | h
          · subst h; exact Nat.le_max_left _ _
          · have h1 : ready ≤ max ready a := Nat.le_max_left _ _
            have h2 := ih _ _ _ h
            omega

/-- Consecutive cycle starts are at least a full cycle (throttle plus
subprocess) apart. -/
lemma runSchedAux_pairwise (T R : Nat) :
    ∀ fuel ready (sigs : List Nat),
      List.Pairwise (fun s t => s + T + R ≤ t)
        (runSchedAux T R fuel ready sigs) := by
  intro fuel
  induction fuel with
  | zero => intro ready sigs; cases sigs <;> simp [runSchedAux]
  | succ f ih =>
      intro ready sigs
      cases sigs with
      | nil => simp [runSchedAux]
      | cons a rest =>
          simp only [runSchedAux]
          exact List.Pairwise.cons
            (fun t ht => runSchedAux_mem_ge T R f _ _ t ht) (ih _ _)

/-- An object without the key, and any non-object, indexes to Null. -/
lemma jsonIndex_eq_null (v : Json) (k : String) (h : hasKey v k = false) :
    jsonIndex v k = Json.null := by
  cases v with
  | null => rfl
  | bool b => rfl
  | num lex => rfl
  | str s => rfl
  | arr elems => rfl
  | obj fields =>
      simp only [hasKey] at h
      have h2 : fields.reverse.find? (fun p => p.1 == k) = none := by
        rw [List.find?_eq_none]
        intro p hp
        rw [List.mem_reverse] at hp
        exact List.any_eq_false.mp h p hp
      simp [jsonIndex, h2]

/-! ### The claims -/

/-- Claim C1: for every job, at most one backup subprocess for that job is
in flight at any instant, for any signal arrival pattern: the
start_watching loop awaits the backup future to completion inside the
select before the recv that starts the next cycle, so each invocation
(spawned at cycle start + T, running R units) exits before the next one is
spawned. -/
theorem single_flight (T R ready : Nat) (sigs : List Nat) :
    List.Pairwise (fun u v => u + R ≤ v) (invocations T R ready sigs) := by
  unfold invocations
  rw [List.pairwise_map]
  refine (runSchedAux_pairwise T R _ _ _).imp ?_
  intro s t h
  omega

/-- Claim C2 is refuted by the code: with throttle 2 and a subprocess
running 3 units, a first signal at instant 0 opens the Pending plus
Running window [0, 5); the signal at instant 3 arrives inside it (during
Running, for the sleep ends at 2), yet it is queued - the backup body has
no await point after the sleep, so the drain branch is never polled during
Running - and it starts a second cycle at instant 5.  The absorption
window the spec describes (runSchedSpec) would run exactly one cycle on
the same trace. -/
theorem same_cycle_signal_replayed :
    runSched 2 3 0 [0, 3] = [0, 5] ∧ (0 + 2 ≤ 3 ∧ 3 < 0 + 2 + 3) ∧
    runSchedSpec 2 3 0 [0, 3] = [0] := by decide

/-- Claim C3: in a cycle started by a signal arriving at instant a with
the scheduler idle, the single throttle sleep runs from a and the
subprocess is spawned exactly at a + T; a further signal b arriving during
Pending neither resets nor extends the timer - it is dropped and the whole
schedule is unchanged - and no signal changes the current cycle's spawn
instant. -/
theorem throttle_single_sleep (T R ready a b : Nat) (rest : List Nat)
    (hIdle : ready ≤ a) (_hb1 : a ≤ b) (hb2 : b < a + T) :
    (invocations T R ready (a :: b :: rest)).head? = some (a + T) ∧
    runSched T R ready (a :: b :: rest) = runSched T R ready (a :: rest) := by
  have hmax : max ready a = a := max_eq_right hIdle
  have hfilter : (b :: rest).filter (fun c => max ready a + T ≤ c) =
      rest.filter (fun c => max ready a + T ≤ c) := by
    rw [List.filter_cons]
    have : (decide (max ready a + T ≤ b)) = false := by
      rw [hmax]; exact decide_eq_false (by omega)
    simp [this]
  constructor
  · unfold invocations
    rw [runSched_cons, hmax]
    rfl
  · rw [runSched_cons, runSched_cons, hfilter, hmax]

/-- Witness for claim C3 at throttle 5, run time 2, cycle-starting signal
at instant 0 and a dropped Pending signal at instant 3. -/
theorem throttle_single_sleep_witness :
    (invocations 5 2 0 [0, 3]).head? = some 5 ∧
    runSched 5 2 0 [0, 3] = runSched 5 2 0 [0] := by
  have h := throttle_single_sleep 5 2 0 0 3 [] (by decide) (by decide) (by decide)
  simpa using h

/-- Claim C4 is refuted by the code: at the concrete input where spawning
fails, backup does not report the failure as a returned value - the expect
of line 48 panics instead. -/
theorem spawn_failure_reported_cex :
    (backup ⟨"docs", "/data/docs", 5⟩ none).isOk = false := by decide

/-- Claim C4 amended: for every job, a subprocess spawn failure makes
backup panic with the expect message of line 48 rather than return; the
failure is not contained to the single invocation and the owning scheduler
does not return to Idle. -/
theorem spawn_failure_panics (job : BackupJobConfig) :
    backup job none = Except.error "Failed to spawn restic process." := rfl

/-- Claim C5: every backup invocation runs the configured executable with
PATH set to env_path and RESTIC_PASSWORD_COMMAND set to password_command,
both output streams piped, and argv exactly: the repository flag with its
value, the JSON flag, the quiet flag, the exclude-file flag with its
value, the backup subcommand, the watched path. -/
theorem backup_command_contract (job : BackupJobConfig) (config : BackupConfig) :
    (backupCmd job config).program = config.restic_path ∧
    (backupCmd job config).envs =
      [("PATH", config.env_path),
       ("RESTIC_PASSWORD_COMMAND", config.password_command)] ∧
    (backupCmd job config).args =
      ["-r", config.repo, "--json", "-q", "--exclude-file",
       config.exclude_file, "backup", job.path] ∧
    (backupCmd job config).stdoutPiped = true ∧
    (backupCmd job config).stderrPiped = true :=
  ⟨rfl, rfl, rfl, rfl, rfl⟩

/-- Claim C6: for every captured stdout text: if it parses as JSON, the
one summary line reports the displayed files_new, files_changed and
total_duration fields and no line is at error level; if it does not
parse, the raw text appears verbatim in the one error line, no summary
line is emitted, and the invocation still returns normally. -/
theorem result_parse_round_trip (job : BackupJobConfig) (c : Int) (s : String) :
    (∀ v, parseJson s = some v →
      backup job (some ⟨s, c⟩) =
        Except.ok [scheduledLine job, initiatingLine job, summaryLine v] ∧
      (scheduledLine job).isError = false ∧
      (initiatingLine job).isError = false ∧
      (summaryLine v).isError = false) ∧
    (parseJson s = none →
      backup job (some ⟨s, c⟩) =
        Except.ok [scheduledLine job, initiatingLine job,
          LogLine.error ("Unable to parse restic response json: Raw resp: " ++ s)]) := by
  constructor
  · intro v hv
    exact ⟨by simp [backup, hv], rfl, rfl, rfl⟩
  · intro hv
    simp [backup, hv, parseErrorLine]

/-- Witness for claim C6: the well-formed output with files_new 3,
files_changed 7 and total_duration 12.5 is summarised with exactly those
values; the empty output is logged verbatim in an error line with no
summary. -/
theorem result_parse_round_trip_witness :
    backup ⟨"docs", "/data/docs", 5⟩
        (some ⟨"\x7b\"files_new\":3,\"files_changed\":7,\"total_duration\":12.5\x7d", 0⟩) =
      Except.ok [scheduledLine ⟨"docs", "/data/docs", 5⟩,
        initiatingLine ⟨"docs", "/data/docs", 5⟩,
        LogLine.info "Backup Complete. - 3 new, 7 changed, finished in 12.5 seconds."] ∧
    backup ⟨"docs", "/data/docs", 5⟩ (some ⟨"", 0⟩) =
      Except.ok [scheduledLine ⟨"docs", "/data/docs", 5⟩,
        initiatingLine ⟨"docs", "/data/docs", 5⟩,
        LogLine.error "Unable to parse restic response json: Raw resp: "] := by
  constructor
  · have h := ((result_parse_round_trip ⟨"docs", "/data/docs", 5⟩ 0
      "\x7b\"files_new\":3,\"files_changed\":7,\"total_duration\":12.5\x7d").1
      (Json.obj [("files_new", Json.num "3"), ("files_changed", Json.num "7"),
        ("total_duration", Json.num "12.5")]) rfl).1
    exact h.trans rfl
  · have h := (result_parse_round_trip ⟨"docs", "/data/docs", 5⟩ 0 "").2 rfl
    exact h.trans rfl

/-- Claim C7: on every startup whose unlock step completes, the trace
carries exactly one unlock invocation and its completion precedes every
backup subprocess spawn of every scheduler. -/
theorem unlock_precedes_scheduling (o : UnlockOutcome)
    (schedEvents trace : List Event)
    (hs : ∀ e ∈ schedEvents, e.isSchedEvent = true)
    (h : mainRun o schedEvents = Except.ok trace) :
    trace.count Event.unlockInvoke = 1 ∧
    trace.count Event.unlockDone = 1 ∧
    ∀ i (hi : i < trace.length), (trace.get ⟨i, hi⟩).isBackupSpawn = true →
      ∃ j, ∃ hj : j < trace.length, j < i ∧
        trace.get ⟨j, hj⟩ = Event.unlockDone := by
  cases o with
  | spawnFail => simp [mainRun, unlock_repository] at h
  | waitFail => simp [mainRun, unlock_repository] at h
  | exited c =>
      simp only [mainRun, unlock_repository] at h
      injection h with h
      subst h
      have h0 : ∀ e, e ∈ schedEvents → e ≠ Event.unlockInvoke ∧
          e ≠ Event.unlockDone := by
        intro e he
        have := hs e he
        cases e <;> simp_all [Event.isSchedEvent]
      have hInv : schedEvents.count Event.unlockInvoke = 0 := by
        rw [List.count_eq_zero]
        intro hmem
        exact (h0 _ hmem).1 rfl
      have hDone : schedEvents.count Event.unlockDone = 0 := by
        rw [List.count_eq_zero]
        intro hmem
        exact (h0 _ hmem).2 rfl
      refine ⟨?_, ?_, ?_⟩
      · simp [List.count_cons, hInv]
      · simp [List.count_cons, hDone]
      · intro i hi hspawn
        match i, hi, hspawn with
        | 0, hi, hspawn => simp [Event.isBackupSpawn] at hspawn
        | 1, hi, hspawn => simp [Event.isBackupSpawn] at hspawn
        | n + 2, hi, hspawn =>
            refine ⟨1, ?_, by omega, rfl⟩
            simp only [List.length_cons, List.length_append]
            omega

/-- Witness for claim C7 on a startup with one scheduler that registers
its watcher and spawns one backup. -/
theorem unlock_precedes_scheduling_witness :
    ([Event.unlockInvoke, Event.unlockDone, Event.watchStart "docs",
      Event.backupSpawn "docs"].count Event.unlockInvoke = 1) :=
  (unlock_precedes_scheduling (UnlockOutcome.exited 0)
    [Event.watchStart "docs", Event.backupSpawn "docs"] _
    (by decide) rfl).1

/-- Claim C8 is refuted by the code: when the unlock subprocess runs and
exits with the unsuccessful code 1, startup does not stop: the exit code
is never read (line 103 only propagates wait errors), success is logged,
and main proceeds to construct and run the schedulers. -/
theorem unlock_failure_fatal_cex :
    mainRun (UnlockOutcome.exited 1) [Event.watchStart "docs"] =
      Except.ok [Event.unlockInvoke, Event.unlockDone,
        Event.watchStart "docs"] := rfl

/-- Claim C8 amended: an OS-level unlock failure - the spawn call or the
wait call failing - panics startup before any scheduler is constructed,
but an unlock subprocess that runs and reports an unsuccessful outcome via
its exit code is treated as success and scheduling proceeds. -/
theorem unlock_failure_fatal_amended (rest : List Event) (c : Int) :
    mainRun UnlockOutcome.spawnFail rest =
      Except.error "Failed to spawn restic process." ∧
    mainRun UnlockOutcome.waitFail rest =
      Except.error "Failed to remove stale lock." ∧
    mainRun (UnlockOutcome.exited c) rest =
      Except.ok ([Event.unlockInvoke, Event.unlockDone] ++ rest) :=
  ⟨rfl, rfl, rfl⟩

/-- Claim C9: backup never inspects the exit status: its result does not
depend on the exit code, every execution that reaches the wait of line 55
returns Ok, and a subprocess exiting non-zero with parseable JSON on
stdout is logged with the success summary as if the backup completed. -/
theorem exit_status_ignored (job : BackupJobConfig) (s : String) (c : Int) :
    backup job (some ⟨s, c⟩) = backup job (some ⟨s, 0⟩) ∧
    (∃ logs, backup job (some ⟨s, c⟩) = Except.ok logs) ∧
    (∀ v, parseJson s = some v → c ≠ 0 →
      backup job (some ⟨s, c⟩) =
        Except.ok [scheduledLine job, initiatingLine job, summaryLine v]) :=
  ⟨rfl, ⟨_, rfl⟩, fun v hv _ => by simp [backup, hv]⟩

/-- Witness for claim C9: exit code 1 with parseable JSON still logs the
success summary. -/
theorem exit_status_ignored_witness :
    backup ⟨"docs", "/data/docs", 5⟩
        (some ⟨"\x7b\"files_new\":3,\"files_changed\":7,\"total_duration\":12.5\x7d", 1⟩) =
      Except.ok [scheduledLine ⟨"docs", "/data/docs", 5⟩,
        initiatingLine ⟨"docs", "/data/docs", 5⟩,
        LogLine.info "Backup Complete. - 3 new, 7 changed, finished in 12.5 seconds."] := by
  have h := (exit_status_ignored ⟨"docs", "/data/docs", 5⟩
    "\x7b\"files_new\":3,\"files_changed\":7,\"total_duration\":12.5\x7d" 1).2.2
    (Json.obj [("files_new", Json.num "3"), ("files_changed", Json.num "7"),
      ("total_duration", Json.num "12.5")]) rfl (by decide)
  exact h.trans rfl

/-- Claim C10: parse success does not require the three summary fields:
every stdout that parses as any JSON value takes the success path with no
error-level line, and each of the three fields that is absent displays as
null in the summary. -/
theorem missing_fields_log_null (job : BackupJobConfig) (c : Int) (s : String)
    (v : Json) (h : parseJson s = some v) :
    backup job (some ⟨s, c⟩) =
      Except.ok [scheduledLine job, initiatingLine job, summaryLine v] ∧
    (scheduledLine job).isError = false ∧
    (initiatingLine job).isError = false ∧
    (summaryLine v).isError = false ∧
    (hasKey v "files_new" = false →
      jsonDisplay (jsonIndex v "files_new") = "null") ∧
    (hasKey v "files_changed" = false →
      jsonDisplay (jsonIndex v "files_changed") = "null") ∧
    (hasKey v "total_duration" = false →
      jsonDisplay (jsonIndex v "total_duration") = "null") := by
  refine ⟨by simp [backup, h], rfl, rfl, rfl, fun h1 => ?_, fun h2 => ?_,
    fun h3 => ?_⟩
  · rw [jsonIndex_eq_null _ _ h1]; rfl
  · rw [jsonIndex_eq_null _ _ h2]; rfl
  · rw [jsonIndex_eq_null _ _ h3]; rfl

/-- Witness for claim C10: the empty object and the bare number 5 both
take the success path and log null for all three fields. -/
theorem missing_fields_log_null_witness :
    backup ⟨"docs", "/data/docs", 5⟩ (some ⟨"\x7b\x7d", 0⟩) =
      Except.ok [scheduledLine ⟨"docs", "/data/docs", 5⟩,
        initiatingLine ⟨"docs", "/data/docs", 5⟩,
        LogLine.info
          "Backup Complete. - null new, null changed, finished in null seconds."] ∧
    backup ⟨"docs", "/data/docs", 5⟩ (some ⟨"5", 0⟩) =
      Except.ok [scheduledLine ⟨"docs", "/data/docs", 5⟩,
        initiatingLine ⟨"docs", "/data/docs", 5⟩,
        LogLine.info
          "Backup Complete. - null new, null changed, finished in null seconds."] := by
  constructor
  · exact ((missing_fields_log_null ⟨"docs", "/data/docs", 5⟩ 0 "\x7b\x7d"
      (Json.obj []) rfl).1).trans rfl
  · exact ((missing_fields_log_null ⟨"docs", "/data/docs", 5⟩ 0 "5"
      (Json.num "5") rfl).1).trans rfl

end ResticAutomator
